import Mathlib

/-!
Verification of the Smart Waste Finder backend (src/main.py, src/schemas.py).

The backend is two Python files: FastAPI route handlers (`main.py`) and
pydantic schemas (`schemas.py`).  Documents live in a MongoDB collection and
are modelled here as association lists of field name to value; Python floats
are modelled as rationals.  The database layer (`database.py`: `db`,
`get_documents`, `create_document`) is imported by `main.py` but is not one of
the two source files; following the spec it is modelled as a direct
pass-through to the document store's filter/find/insert primitives.
-/

namespace WasteFinder

/-- A BSON value as used by this backend: numbers (Python floats/ints modelled
as rationals), strings, ObjectIds (held as their hex string), and arrays. -/
inductive Value where
  | num (q : ℚ)
  | str (s : String)
  | oid (s : String)
  | arr (l : List Value)

/-- A MongoDB document: an ordered association list of field name to value,
modelling a Python dict (keys unique in practice, first binding wins). -/
abbrev Doc := List (String × Value)

/-- Conversion applied by the `for k, v in list(doc.items())` loop of
`serialize_doc` in main.py: a top-level ObjectId value is replaced by its
string; every other value (including ObjectIds nested inside arrays, which
`isinstance(v, ObjectId)` does not see) is kept as is. -/
def valConv : Value → Value
  | .oid s => .str s
  | v => v

/-- Python `str()` on a stored value, as needed by `str(doc.pop("_id"))` in
main.py.  Faithful on ObjectIds and strings, the only cases `_id` takes in
this app; the remaining cases are an approximation and are never relied on. -/
def pyStr : Value → String
  | .oid s => s
  | .str s => s
  | .num q => toString q
  | .arr _ => "[]"

/-- Python `doc.pop(k)`: the dict without key `k`. -/
def dictPop (d : Doc) (k : String) : Doc :=
  d.filter (fun p => p.1 != k)

/-- Python `doc[k] = v`: replace the value in place when the key exists,
otherwise append the new binding at the end. -/
def dictSet (d : Doc) (k : String) (v : Value) : Doc :=
  if (d.lookup k).isSome then
    d.map (fun p => if p.1 = k then (k, v) else p)
  else
    d ++ [(k, v)]

/-- The ObjectId-to-string conversion loop of `serialize_doc` in main.py. -/
def mapOids (d : Doc) : Doc :=
  d.map (fun p => (p.1, valConv p.2))

/-- `serialize_doc` from main.py lines 37-47: pop `_id`, store its string form
under `id`, then render every remaining top-level ObjectId value as a string.
An empty dict is returned unchanged, which coincides with the general case. -/
def serialize_doc (d : Doc) : Doc :=
  match d.lookup "_id" with
  | some v => mapOids (dictSet (dictPop d "_id") "id" (.str (pyStr v)))
  | none => mapOids d

/-- Lower-case a string to its character list, for case-insensitive matching. -/
def lowerStr (s : String) : List Char :=
  s.data.map Char.toLower

/-- Whether `pat` is a leading segment of `s`. -/
def headMatch : List Char → List Char → Bool
  | [], _ => true
  | _ :: _, [] => false
  | a :: as, b :: bs => a == b && headMatch as bs

/-- Whether `pat` occurs contiguously somewhere inside `s`. -/
def occursIn (pat : List Char) : List Char → Bool
  | [] => headMatch pat []
  | c :: rest => headMatch pat (c :: rest) || occursIn pat rest

/-- The proposition that `q` occurs, ignoring case, as a substring of `s`. -/
def SubstrI (q s : String) : Prop :=
  ∃ p t, lowerStr s = p ++ lowerStr q ++ t

/-- The shapes of MongoDB filter conditions that `list_stations` builds:
equality on a string field, the `$or` of case-insensitive searches on `name`
and `address`, and a `{$gte, $lte}` range on a numeric field. -/
inductive MPred where
  | eqStr (field val : String)
  | orSearch (q : String)
  | numRange (field : String) (lo hi : ℚ)

/-- Modelled from the spec: evaluation of one `$regex`/`$options: "i"` clause
happens in the database layer (`database.py` and MongoDB), which is not among
the two source files; the spec calls it "case-insensitive substring search on
name/address", so a clause matches when the field holds a string containing
the query ignoring case, and a missing or non-string field does not match. -/
def fieldSearch (d : Doc) (field q : String) : Bool :=
  match d.lookup field with
  | some (.str s) => occursIn (lowerStr q) (lowerStr s)
  | _ => false

/-- Modelled from the spec: condition evaluation is the document database's,
not in src/; the spec calls every query "a direct pass-through to a document
database's filter/find primitives".  Equality matches an equal string field,
a range matches a numeric field between the bounds, and the `$or` clause is
the search on `name`/`address` above. -/
def matchesPred (d : Doc) : MPred → Bool
  | .eqStr f v =>
    match d.lookup f with
    | some (.str s) => s == v
    | _ => false
  | .orSearch q => fieldSearch d "name" q || fieldSearch d "address" q
  | .numRange f lo hi =>
    match d.lookup f with
    | some (.num x) => decide (lo ≤ x) && decide (x ≤ hi)
    | _ => false

/-- A document matches a filter when it satisfies every condition (MongoDB
conjunction semantics for a filter dictionary). -/
def matchesFilter (f : List MPred) (d : Doc) : Bool :=
  f.all (matchesPred d)

/-- Modelled from the spec: `get_documents` is defined in `database.py`, which
is not among the two source files.  The spec states every query is "a direct
pass-through to a document database's filter/find primitives", so it returns
the collection's documents matching the filter, truncated to `limit` when one
is given. -/
def get_documents (coll : List Doc) (f : List MPred) (limit : Option ℕ) : List Doc :=
  match limit with
  | some n => (coll.filter (matchesFilter f)).take n
  | none => coll.filter (matchesFilter f)

/-- The filter dictionary built by `list_stations` in main.py lines 123-140:
a `type` equality when `type` is truthy, the `$or` regex clause when `query`
is truthy, and the bounding box on `latitude`/`longitude` when `lat` and
`lng` are not None and `radius_km` is truthy (so `radius_km = 0` adds no
coordinate condition). -/
def stationFilter (type query : Option String) (lat lng radius_km : Option ℚ) :
    List MPred :=
  (match type with
   | some t => if t = "" then [] else [.eqStr "type" t]
   | none => []) ++
  (match query with
   | some q => if q = "" then [] else [.orSearch q]
   | none => []) ++
  (match lat, lng, radius_km with
   | some la, some lo, some r =>
     if r = 0 then []
     else
       [.numRange "latitude" (la - r / 111) (la + r / 111),
        .numRange "longitude" (lo - r / 111) (lo + r / 111)]
   | _, _, _ => [])

/-- `GET /api/stations` (main.py lines 114-143): build the filter, fetch at
most `limit` matching station documents, serialize each. -/
def list_stations (stations : List Doc) (type query : Option String) (limit : ℕ)
    (lat lng radius_km : Option ℚ) : List Doc :=
  (get_documents stations (stationFilter type query lat lng radius_km)
    (some limit)).map serialize_doc

/-- Python `float(...)` on a stored value as used by `dist2` in main.py:
numbers convert to themselves, anything else raises (string parsing of
numeric literals is not modelled; coordinates are stored as numbers). -/
def pyFloat : Value → Option ℚ
  | .num q => some q
  | _ => none

/-- The `dist2` key of `nearby_stations` (main.py lines 164-168): squared
planar distance using `d.get("latitude", 0)` / `d.get("longitude", 0)`, so a
missing coordinate reads as 0; any exception during conversion yields the
sentinel `1e12`. -/
def dist2 (lat lng : ℚ) (d : Doc) : ℚ :=
  match pyFloat ((d.lookup "latitude").getD (.num 0)),
        pyFloat ((d.lookup "longitude").getD (.num 0)) with
  | some la, some lo => (la - lat) ^ 2 + (lo - lng) ^ 2
  | _, _ => 10 ^ 12

/-- Comparison on the `dist2` sort key. -/
def distLE (lat lng : ℚ) (a b : Doc) : Bool :=
  decide (dist2 lat lng a ≤ dist2 lat lng b)

/-- `GET /api/stations/nearby` (main.py lines 156-170): fetch every station
document, sort by squared planar distance to the query point (Python `sorted`
is a stable sort by key, modelled by the stable `mergeSort`), truncate to
`limit`, serialize each. -/
def nearby_stations (stations : List Doc) (lat lng : ℚ) (limit : ℕ) : List Doc :=
  (((get_documents stations [] none).mergeSort (distLE lat lng)).take limit).map
    serialize_doc

/-- `GET /api/recommendations` (main.py lines 174-177): fetch at most `limit`
recommendation documents with an empty filter, serialize each. -/
def list_recommendations (recs : List Doc) (limit : ℕ) : List Doc :=
  (get_documents recs [] (some limit)).map serialize_doc

/-- An HTTP response of the insert endpoints: success with a status and a JSON
body, or an error with a status and a detail string. -/
inductive HResp where
  | ok (status : ℕ) (body : Doc)
  | err (status : ℕ) (detail : String)

/-- A station create payload: the fields of the `Station` schema in
schemas.py (the `website` URL shape check of pydantic is not modelled). -/
structure StationIn where
  name : String
  type : String
  address : String
  latitude : ℚ
  longitude : ℚ
  rating : Option ℚ
  review_count : Option ℤ
  phone : Option String
  website : Option String
  hours : Option String
  services : List String

/-- The `StationType` literal of schemas.py line 17. -/
def stationTypes : List String :=
  ["dump", "recycling", "ewaste", "compost", "hazmat"]

/-- The `rating` constraint of schemas.py line 29: optional, in [0, 5]. -/
def optRatingOK : Option ℚ → Bool
  | some r => decide (0 ≤ r) && decide (r ≤ 5)
  | none => true

/-- The `review_count` constraint of schemas.py line 30: optional, ≥ 0. -/
def optCountOK : Option ℤ → Bool
  | some c => decide (0 ≤ c)
  | none => true

/-- Field-level validation of the `Station` schema (schemas.py lines 19-34):
`type` in the literal, `latitude` in [-90, 90], `longitude` in [-180, 180],
`rating` in [0, 5] when present, `review_count` ≥ 0 when present. -/
def stationValid (p : StationIn) : Bool :=
  stationTypes.contains p.type &&
  (decide (-90 ≤ p.latitude) && decide (p.latitude ≤ 90)) &&
  (decide (-180 ≤ p.longitude) && decide (p.longitude ≤ 180)) &&
  optRatingOK p.rating && optCountOK p.review_count

/-- Validity of every `Station` field other than the two coordinates. -/
def stationOtherValid (p : StationIn) : Bool :=
  stationTypes.contains p.type && optRatingOK p.rating && optCountOK p.review_count

/-- `POST /api/stations` (main.py lines 146-153).  The framework-level body
validation step is modelled from the spec ("Validation errors from malformed
payloads surface as standard framework-level 422 responses"): an invalid
payload never reaches the handler.  The handler's `create_document` plus
`find_one` round trip lives in the database layer and is modelled by the
`ins` outcome: an exception string, or the stored document; an exception is
caught and re-raised as HTTP 400 with `str(e)` as detail. -/
def create_station (p : StationIn) (ins : Except String Doc) : HResp :=
  if stationValid p then
    match ins with
    | .ok doc => .ok 201 (serialize_doc doc)
    | .error e => .err 400 e
  else .err 422 "validation error"

/-- A feedback payload: the fields of `RecommendationFeedback` in schemas.py
lines 47-55. -/
structure FeedbackIn where
  item_id : String
  action : String
  reason : Option String
  user_id : Option String

/-- Field-level validation of `RecommendationFeedback`: `action` is the
literal `"up"` or `"down"`. -/
def feedbackValid (p : FeedbackIn) : Bool :=
  p.action == "up" || p.action == "down"

/-- `POST /api/recommendations/feedback` (main.py lines 180-187), modelled
exactly like `create_station`. -/
def submit_feedback (p : FeedbackIn) (ins : Except String Doc) : HResp :=
  if feedbackValid p then
    match ins with
    | .ok doc => .ok 201 (serialize_doc doc)
    | .error e => .err 400 e
  else .err 422 "validation error"

/-- The database state seen by the seed endpoint: the `station` and
`recommendation` collections. -/
structure DBState where
  station : List Doc
  recommendation : List Doc

/-- Modelled from the spec: `create_document` is defined in `database.py`,
which is not among the two source files; per the spec it is a direct
pass-through to the store's insert primitive, appending the new document. -/
def create_document (coll : List Doc) (d : Doc) : List Doc :=
  coll ++ [d]

/-- The three sample stations inserted by `seed_sample_data` (main.py lines
199-203), rendered as documents. -/
def sampleStations : List Doc :=
  [[("name", .str "GreenCycle Center"), ("type", .str "recycling"),
    ("address", .str "123 Elm St"), ("latitude", .num 37.7749),
    ("longitude", .num (-122.4194)), ("rating", .num 4.7),
    ("review_count", .num 128),
    ("services", .arr [.str "plastic", .str "paper", .str "metal"])],
   [("name", .str "City Dump Yard"), ("type", .str "dump"),
    ("address", .str "45 Industrial Rd"), ("latitude", .num 37.78),
    ("longitude", .num (-122.41)), ("rating", .num 4.1),
    ("review_count", .num 63),
    ("services", .arr [.str "bulk", .str "construction"])],
   [("name", .str "Tech E-Waste Depot"), ("type", .str "ewaste"),
    ("address", .str "9 Silicon Ave"), ("latitude", .num 37.76),
    ("longitude", .num (-122.42)), ("rating", .num 4.8),
    ("review_count", .num 204),
    ("services", .arr [.str "electronics", .str "batteries"])]]

/-- The two sample recommendations inserted by `seed_sample_data` (main.py
lines 208-211). -/
def sampleRecs : List Doc :=
  [[("title", .str "Recycle plastics today"),
    ("description", .str "Drop-off at GreenCycle before 6pm"),
    ("tags", .arr [.str "recycling", .str "plastic"])],
   [("title", .str "Dispose e-waste safely"),
    ("description", .str "Tech Depot accepts laptops"),
    ("tags", .arr [.str "ewaste"])]]

/-- `POST /api/seed` (main.py lines 194-215): when the `station` collection
counts zero documents, insert the three samples; when `recommendation` counts
zero, insert the two samples; return the new state and the number inserted. -/
def seed_sample_data (s : DBState) : DBState × ℕ :=
  let stData :=
    if s.station.length = 0 then
      (sampleStations.foldl create_document s.station, sampleStations.length)
    else (s.station, 0)
  let rcData :=
    if s.recommendation.length = 0 then
      (sampleRecs.foldl create_document s.recommendation, sampleRecs.length)
    else (s.recommendation, 0)
  (⟨stData.1, rcData.1⟩, stData.2 + rcData.2)

/-! ### Helper lemmas -/

/-- Correctness of the leading-segment test. -/
theorem headMatch_iff (pat : List Char) : ∀ s : List Char,
    headMatch pat s = true ↔ ∃ t, s = pat ++ t := by
  induction pat with
  | nil => intro s; simp [headMatch]
  | cons a as ih =>
    intro s
    cases s with
    | nil => simp [headMatch]
    | cons b bs =>
      simp only [headMatch, Bool.and_eq_true, beq_iff_eq, ih, List.cons_append,
        List.cons.injEq]
      constructor
      · rintro ⟨hab, t, ht⟩
        exact ⟨t, hab.symm, ht⟩
      · rintro ⟨t, hab, ht⟩
        exact ⟨hab.symm, t, ht⟩

/-- Correctness of the substring scanner: `pat` occurs in `s` exactly when `s`
splits around a contiguous copy of `pat`. -/
theorem occursIn_iff (pat : List Char) : ∀ s : List Char,
    occursIn pat s = true ↔ ∃ p t, s = p ++ pat ++ t := by
  intro s
  induction s with
  | nil =>
    simp only [occursIn, headMatch_iff]
    constructor
    · rintro ⟨t, ht⟩
      exact ⟨[], t, ht⟩
    · rintro ⟨p, t, ht⟩
      cases p with
      | nil => exact ⟨t, by simpa using ht⟩
      | cons x xs => simp at ht
  | cons c rest ih =>
    simp only [occursIn, Bool.or_eq_true, headMatch_iff, ih]
    constructor
    · rintro (⟨t, ht⟩ | ⟨p, t, ht⟩)
      · exact ⟨[], t, by simpa using ht⟩
      · exact ⟨c :: p, t, by simp [ht]⟩
    · rintro ⟨p, t, ht⟩
      cases p with
      | nil => exact Or.inl ⟨t, by simpa using ht⟩
      | cons x xs =>
        simp only [List.cons_append, List.cons.injEq] at ht
        exact Or.inr ⟨xs, t, ht.2⟩

/-- The `$regex` clause model agrees with the case-insensitive substring
proposition. -/
theorem fieldSearch_iff (d : Doc) (field q : String) :
    fieldSearch d field q = true ↔
      ∃ s, d.lookup field = some (.str s) ∧ SubstrI q s := by
  unfold fieldSearch SubstrI
  cases h : d.lookup field with
  | none => simp [h]
  | some v =>
    cases v with
    | str s => simp [h, occursIn_iff]
    | num x => simp [h]
    | oid s => simp [h]
    | arr l => simp [h]

/-- Lookup at the head key. -/
theorem lookup_cons_eq (a : String) (b : Value) (rest : Doc) (k : String)
    (h : k = a) : ((a, b) :: rest).lookup k = some b := by
  have hb : (k == a) = true := by simp [h]
  simp [List.lookup_cons, hb]

/-- Lookup past a head with a different key. -/
theorem lookup_cons_ne (a : String) (b : Value) (rest : Doc) (k : String)
    (h : k ≠ a) : ((a, b) :: rest).lookup k = rest.lookup k := by
  have hb : (k == a) = false := by simp [h]
  simp [List.lookup_cons, hb]

/-- Lookup after the ObjectId-conversion loop: the first binding of each key
is preserved, with its value converted. -/
theorem lookup_mapOids (d : Doc) (k : String) :
    (mapOids d).lookup k = (d.lookup k).map valConv := by
  induction d with
  | nil => rfl
  | cons p rest ih =>
    obtain ⟨a, b⟩ := p
    by_cases h : k = a
    · rw [mapOids, List.map_cons, lookup_cons_eq _ _ _ _ h, lookup_cons_eq _ _ _ _ h]
      rfl
    · rw [mapOids, List.map_cons, lookup_cons_ne _ _ _ _ h, lookup_cons_ne _ _ _ _ h]
      exact ih

/-- Lookup of a different key after `doc.pop(j)` is unchanged. -/
theorem lookup_dictPop_ne (j k : String) (h : k ≠ j) (d : Doc) :
    (dictPop d j).lookup k = d.lookup k := by
  induction d with
  | nil => rfl
  | cons p rest ih =>
    obtain ⟨a, b⟩ := p
    by_cases hp : a = j
    · have hkp : k ≠ a := fun hc => h (hc.trans hp)
      have h1 : (((a, b) : String × Value).1 != j) = false := by simp [hp]
      rw [dictPop, List.filter_cons, h1, if_neg Bool.false_ne_true,
        lookup_cons_ne _ _ _ _ hkp]
      exact ih
    · have h1 : (((a, b) : String × Value).1 != j) = true := by simp [hp]
      rw [dictPop, List.filter_cons, h1, if_pos rfl]
      by_cases hk : k = a
      · rw [lookup_cons_eq _ _ _ _ hk, lookup_cons_eq _ _ _ _ hk]
      · rw [lookup_cons_ne _ _ _ _ hk, lookup_cons_ne _ _ _ _ hk]
        exact ih

/-- Lookup of `j` itself after `doc.pop(j)` finds nothing. -/
theorem lookup_dictPop_self (j : String) (d : Doc) :
    (dictPop d j).lookup j = none := by
  induction d with
  | nil => rfl
  | cons p rest ih =>
    obtain ⟨a, b⟩ := p
    by_cases hp : a = j
    · have h1 : (((a, b) : String × Value).1 != j) = false := by simp [hp]
      rw [dictPop, List.filter_cons, h1, if_neg Bool.false_ne_true]
      exact ih
    · have h1 : (((a, b) : String × Value).1 != j) = true := by simp [hp]
      rw [dictPop, List.filter_cons, h1, if_pos rfl,
        lookup_cons_ne _ _ _ _ (fun hc => hp hc.symm)]
      exact ih

/-- Lookup in the set-in-place map when the key occurs somewhere. -/
theorem lookup_setMap_self (k : String) (v : Value) (d : Doc)
    (h : (d.lookup k).isSome) :
    (d.map (fun p => if p.1 = k then (k, v) else p)).lookup k = some v := by
  induction d with
  | nil => simp [List.lookup] at h
  | cons p rest ih =>
    obtain ⟨a, b⟩ := p
    rw [List.map_cons]
    by_cases hp : a = k
    · show ((if a = k then (k, v) else (a, b)) :: _).lookup k = some v
      rw [if_pos hp, lookup_cons_eq _ _ _ _ rfl]
    · show ((if a = k then (k, v) else (a, b)) :: _).lookup k = some v
      have hkp : k ≠ a := fun hc => hp hc.symm
      rw [lookup_cons_ne _ _ _ _ hkp] at h
      rw [if_neg hp, lookup_cons_ne _ _ _ _ hkp]
      exact ih h

/-- Lookup in the set-in-place map at a key other than the assigned one. -/
theorem lookup_setMap_ne (k j : String) (v : Value) (h : j ≠ k) (d : Doc) :
    (d.map (fun p => if p.1 = k then (k, v) else p)).lookup j = d.lookup j := by
  induction d with
  | nil => rfl
  | cons p rest ih =>
    obtain ⟨a, b⟩ := p
    rw [List.map_cons]
    show ((if a = k then (k, v) else (a, b)) :: _).lookup j = _
    by_cases hp : a = k
    · have hjp : j ≠ a := fun hc => h (hc.trans hp)
      rw [if_pos hp, lookup_cons_ne _ _ _ _ h, lookup_cons_ne _ _ _ _ hjp]
      exact ih
    · rw [if_neg hp]
      by_cases hj : j = a
      · rw [lookup_cons_eq _ _ _ _ hj, lookup_cons_eq _ _ _ _ hj]
      · rw [lookup_cons_ne _ _ _ _ hj, lookup_cons_ne _ _ _ _ hj]
        exact ih

/-- Lookup past an appended tail when the key is absent up front. -/
theorem lookup_append_right (d e : Doc) (k : String) (h : d.lookup k = none) :
    (d ++ e).lookup k = e.lookup k := by
  induction d with
  | nil => rfl
  | cons p rest ih =>
    obtain ⟨a, b⟩ := p
    by_cases hp : k = a
    · rw [lookup_cons_eq _ _ _ _ hp] at h
      exact absurd h (by simp)
    · rw [lookup_cons_ne _ _ _ _ hp] at h
      rw [List.cons_append, lookup_cons_ne _ _ _ _ hp]
      exact ih h

/-- Lookup in a prepended part is unchanged by an appended tail when found. -/
theorem lookup_append_left (d e : Doc) (k : String) (v : Value)
    (h : d.lookup k = some v) : (d ++ e).lookup k = some v := by
  induction d with
  | nil => simp [List.lookup] at h
  | cons p rest ih =>
    obtain ⟨a, b⟩ := p
    by_cases hp : k = a
    · rw [lookup_cons_eq _ _ _ _ hp] at h
      rw [List.cons_append, lookup_cons_eq _ _ _ _ hp]
      exact h
    · rw [lookup_cons_ne _ _ _ _ hp] at h
      rw [List.cons_append, lookup_cons_ne _ _ _ _ hp]
      exact ih h

/-- A lookup that is not `isSome` is `none`. -/
theorem lookup_none_of_not_isSome (d : Doc) (k : String)
    (h : ¬(d.lookup k).isSome = true) : d.lookup k = none := by
  cases hd : d.lookup k
  · rfl
  · rw [hd] at h
    simp at h

/-- Lookup of the assigned key after `doc[k] = v` yields `v`. -/
theorem lookup_dictSet_self (k : String) (v : Value) (d : Doc) :
    (dictSet d k v).lookup k = some v := by
  unfold dictSet
  by_cases h : (d.lookup k).isSome
  · rw [if_pos h]
    exact lookup_setMap_self k v d h
  · rw [if_neg h, lookup_append_right _ _ _ (lookup_none_of_not_isSome d k h),
      lookup_cons_eq _ _ _ _ rfl]

/-- Lookup of a different key after `doc[k] = v` is unchanged. -/
theorem lookup_dictSet_ne (k j : String) (v : Value) (h : j ≠ k) (d : Doc) :
    (dictSet d k v).lookup j = d.lookup j := by
  unfold dictSet
  by_cases hs : (d.lookup k).isSome
  · rw [if_pos hs]
    exact lookup_setMap_ne k j v h d
  · rw [if_neg hs]
    cases hd : d.lookup j with
    | some w => exact lookup_append_left _ _ _ _ hd
    | none =>
      rw [lookup_append_right _ _ _ hd, lookup_cons_ne _ _ _ _ h]
      rfl

/-- Lookup through `serialize_doc` for a key other than `_id` and `id`: the
original first binding, with ObjectId values rendered as strings. -/
theorem lookup_serialize_other (d : Doc) (k : String) (h1 : k ≠ "_id")
    (h2 : k ≠ "id") :
    (serialize_doc d).lookup k = (d.lookup k).map valConv := by
  unfold serialize_doc
  cases hid : d.lookup "_id" with
  | none => simp [lookup_mapOids]
  | some v =>
    simp [lookup_mapOids, lookup_dictSet_ne _ _ _ h2, lookup_dictPop_ne _ _ h1]

/-- `serialize_doc` removes the `_id` key. -/
theorem lookup_serialize_uid (d : Doc) : (serialize_doc d).lookup "_id" = none := by
  unfold serialize_doc
  cases hid : d.lookup "_id" with
  | none => simp [lookup_mapOids, hid]
  | some v =>
    have hne : ("_id" : String) ≠ "id" := by decide
    simp [lookup_mapOids, lookup_dictSet_ne _ _ _ hne, lookup_dictPop_self]

/-- When `_id` is present, `serialize_doc` stores its string form under `id`. -/
theorem lookup_serialize_id (d : Doc) (v : Value) (h : d.lookup "_id" = some v) :
    (serialize_doc d).lookup "id" = some (.str (pyStr v)) := by
  unfold serialize_doc
  simp [h, lookup_mapOids, lookup_dictSet_self, valConv]

/-- Converting a value never changes what `float()` makes of it. -/
theorem pyFloat_valConv (v : Value) : pyFloat (valConv v) = pyFloat v := by
  cases v <;> rfl

/-- Serialization does not change the distance key: the coordinate fields are
neither `_id` nor `id`, and converted values convert to the same float. -/
theorem dist2_serialize (lat lng : ℚ) (d : Doc) :
    dist2 lat lng (serialize_doc d) = dist2 lat lng d := by
  unfold dist2
  rw [lookup_serialize_other d "latitude" (by decide) (by decide),
      lookup_serialize_other d "longitude" (by decide) (by decide)]
  cases hla : d.lookup "latitude" <;> cases hlo : d.lookup "longitude" <;>
    simp [pyFloat_valConv]

/-- The distance comparison is transitive. -/
theorem distLE_trans (lat lng : ℚ) : ∀ a b c : Doc, distLE lat lng a b = true →
    distLE lat lng b c = true → distLE lat lng a c = true := by
  intro a b c hab hbc
  simp only [distLE, decide_eq_true_eq] at hab hbc ⊢
  exact le_trans hab hbc

/-- The distance comparison is total. -/
theorem distLE_total (lat lng : ℚ) : ∀ a b : Doc,
    (distLE lat lng a b || distLE lat lng b a) = true := by
  intro a b
  simp only [distLE, Bool.or_eq_true, decide_eq_true_eq]
  exact le_total _ _

/-- An empty filter keeps every document. -/
theorem get_documents_all (coll : List Doc) : get_documents coll [] none = coll := by
  simp [get_documents, matchesFilter]

/-- The nearby-stations response is pairwise non-decreasing in the squared
planar distance to the query point. -/
theorem nearby_pairwise (stations : List Doc) (lat lng : ℚ) (limit : ℕ) :
    List.Pairwise (fun a b => dist2 lat lng a ≤ dist2 lat lng b)
      (nearby_stations stations lat lng limit) := by
  unfold nearby_stations
  apply List.Pairwise.map
  · intro a b h
    rwa [dist2_serialize, dist2_serialize]
  · apply List.Pairwise.sublist (List.take_sublist _ _)
    have h := List.sorted_mergeSort (distLE_trans lat lng) (distLE_total lat lng)
      (get_documents stations [] none)
    exact h.imp (by intro a b hab; simpa [distLE] using hab)

/-! ### Claims -/

/-- C1: for every list of station documents and every query point, the
nearby-stations operation returns the stations sorted so that squared planar
distance to the query point is non-decreasing along the returned list, the
list is truncated to at most `limit` elements, and on a document with numeric
coordinates the distance key is exactly ((latitude - lat)^2 +
(longitude - lng)^2). -/
theorem C1_nearby_sorted_truncated (stations : List Doc) (lat lng la lo : ℚ)
    (limit : ℕ) (d : Doc) (hla : d.lookup "latitude" = some (.num la))
    (hlo : d.lookup "longitude" = some (.num lo)) :
    List.Pairwise (fun a b => dist2 lat lng a ≤ dist2 lat lng b)
      (nearby_stations stations lat lng limit) ∧
    (nearby_stations stations lat lng limit).length ≤ limit ∧
    dist2 lat lng d = (la - lat) ^ 2 + (lo - lng) ^ 2 := by
  refine ⟨nearby_pairwise stations lat lng limit, ?_, ?_⟩
  · unfold nearby_stations
    rw [List.length_map]
    exact List.length_take_le _ _
  · unfold dist2
    rw [hla, hlo]
    rfl

/-- Witness for C1 on one concrete station at (3, 4) queried from (1, 2). -/
theorem C1_nearby_sorted_truncated_witness :
    List.Pairwise (fun a b => dist2 1 2 a ≤ dist2 1 2 b)
      (nearby_stations [[("latitude", Value.num 3), ("longitude", Value.num 4)]]
        1 2 10) ∧
    (nearby_stations [[("latitude", Value.num 3), ("longitude", Value.num 4)]]
      1 2 10).length ≤ 10 ∧
    dist2 1 2 [("latitude", Value.num 3), ("longitude", Value.num 4)] =
      (3 - 1) ^ 2 + (4 - 2) ^ 2 :=
  C1_nearby_sorted_truncated
    [[("latitude", Value.num 3), ("longitude", Value.num 4)]] 1 2 3 4 10
    [("latitude", Value.num 3), ("longitude", Value.num 4)] rfl rfl

/-- C3: the seed operation is idempotent: starting from any state, running it
once and then again inserts zero rows the second time and leaves the state
unchanged, because the sample rows go in only when a collection is empty. -/
theorem C3_seed_idempotent (s : DBState) :
    (seed_sample_data (seed_sample_data s).1).2 = 0 ∧
    (seed_sample_data (seed_sample_data s).1).1 = (seed_sample_data s).1 := by
  unfold seed_sample_data
  by_cases h1 : s.station.length = 0 <;> by_cases h2 : s.recommendation.length = 0 <;>
    simp [h1, h2, sampleStations, sampleRecs, create_document]

/-- C8: every list endpoint caps its result at the validated `limit`: the
stations list under the [1, 200] constraint, nearby stations and the
recommendations list under [1, 100]. -/
theorem C8_limit_caps (stations recs : List Doc) (type query : Option String)
    (lat0 lng0 : ℚ) (lat lng r : Option ℚ) (ls ln lr : ℕ)
    (h1 : 1 ≤ ls) (h2 : ls ≤ 200) (h3 : 1 ≤ ln) (h4 : ln ≤ 100)
    (h5 : 1 ≤ lr) (h6 : lr ≤ 100) :
    (list_stations stations type query ls lat lng r).length ≤ ls ∧
    (nearby_stations stations lat0 lng0 ln).length ≤ ln ∧
    (list_recommendations recs lr).length ≤ lr := by
  refine ⟨?_, ?_, ?_⟩ <;>
    simp [list_stations, nearby_stations, list_recommendations, get_documents] <;>
    omega

/-- Witness for C8 on empty collections with the default limits. -/
theorem C8_limit_caps_witness :
    (list_stations [] none none 50 none none none).length ≤ 50 ∧
    (nearby_stations [] 0 0 10).length ≤ 10 ∧
    (list_recommendations [] 20).length ≤ 20 :=
  C8_limit_caps [] [] none none 0 0 none none none 50 10 20
    (by decide) (by decide) (by decide) (by decide) (by decide) (by decide)

/-- C9: the bounding-box filter is applied only when `lat`, `lng` and a
nonzero `radius_km` are all supplied; in particular `radius_km = 0` behaves
exactly like an absent radius, and any request missing one of the three
coordinate parameters (or passing radius 0) behaves exactly like a request
with none of them. -/
theorem C9_zero_radius (docs : List Doc) (type query : Option String)
    (limit : ℕ) (lat lng lat2 lng2 r : Option ℚ)
    (h : lat2 = none ∨ lng2 = none ∨ r = none ∨ r = some 0) :
    list_stations docs type query limit lat lng (some 0) =
      list_stations docs type query limit lat lng none ∧
    list_stations docs type query limit lat2 lng2 r =
      list_stations docs type query limit none none none := by
  constructor
  · unfold list_stations
    congr 1
    unfold stationFilter
    cases lat <;> cases lng <;> simp
  · unfold list_stations
    congr 1
    unfold stationFilter
    rcases h with h | h | h | h <;> subst h
    · simp
    · cases lat2 <;> simp
    · cases lat2 <;> cases lng2 <;> simp
    · cases lat2 <;> cases lng2 <;> simp

/-- Witness for C9 with a zero radius at the origin over one document. -/
theorem C9_zero_radius_witness :
    list_stations [[("type", Value.str "dump")]] none none 50 (some 0) (some 0)
        (some 0) =
      list_stations [[("type", Value.str "dump")]] none none 50 (some 0) (some 0)
        none ∧
    list_stations [[("type", Value.str "dump")]] none none 50 (some 0) (some 0)
        (some 0) =
      list_stations [[("type", Value.str "dump")]] none none 50 none none none :=
  C9_zero_radius [[("type", Value.str "dump")]] none none 50 (some 0) (some 0)
    (some 0) (some 0) (some 0) (Or.inr (Or.inr (Or.inr rfl)))

/-- C6: serialization removes `_id`, stores its string form under `id`, and
keeps every other field's value, with top-level ObjectId values rendered as
their strings. -/
theorem C6_serialize_doc_id (d : Doc) (v : Value) (k oidStr : String)
    (hid : d.lookup "_id" = some v) (hk1 : k ≠ "_id") (hk2 : k ≠ "id") :
    (serialize_doc d).lookup "_id" = none ∧
    (serialize_doc d).lookup "id" = some (.str (pyStr v)) ∧
    (serialize_doc d).lookup k = (d.lookup k).map valConv ∧
    valConv (.oid oidStr) = .str oidStr :=
  ⟨lookup_serialize_uid d, lookup_serialize_id d v hid,
    lookup_serialize_other d k hk1 hk2, rfl⟩

/-- Witness for C6 on a document with an ObjectId `_id` and a nested
ObjectId field. -/
theorem C6_serialize_doc_id_witness :
    (serialize_doc [("_id", Value.oid "abc"), ("owner", Value.oid "u1"),
      ("rating", Value.num 4)]).lookup "_id" = none ∧
    (serialize_doc [("_id", Value.oid "abc"), ("owner", Value.oid "u1"),
      ("rating", Value.num 4)]).lookup "id" =
        some (.str (pyStr (Value.oid "abc"))) ∧
    (serialize_doc [("_id", Value.oid "abc"), ("owner", Value.oid "u1"),
      ("rating", Value.num 4)]).lookup "owner" =
        (([("_id", Value.oid "abc"), ("owner", Value.oid "u1"),
          ("rating", Value.num 4)] : Doc).lookup "owner").map valConv ∧
    valConv (.oid "xyz") = .str "xyz" :=
  C6_serialize_doc_id
    [("_id", Value.oid "abc"), ("owner", Value.oid "u1"), ("rating", Value.num 4)]
    (Value.oid "abc") "owner" "xyz" rfl (by decide) (by decide)

/-- C7: when the payload passes schema validation, a failing insert is
reported as HTTP 400 with the exception string as detail, and a successful
insert as HTTP 201 with the stored document. -/
theorem C7_insert_outcomes (p : StationIn) (f : FeedbackIn) (e eF : String)
    (doc docF : Doc) (hp : stationValid p = true) (hf : feedbackValid f = true) :
    create_station p (.error e) = .err 400 e ∧
    create_station p (.ok doc) = .ok 201 (serialize_doc doc) ∧
    submit_feedback f (.error eF) = .err 400 eF ∧
    submit_feedback f (.ok docF) = .ok 201 (serialize_doc docF) := by
  unfold create_station submit_feedback
  simp [hp, hf]

/-- Witness for C7 on a valid station payload and a thumbs-up feedback. -/
theorem C7_insert_outcomes_witness :
    create_station
        ⟨"GreenCycle", "recycling", "123 Elm St", 37, -122, none, none, none,
          none, none, []⟩ (.error "boom") = .err 400 "boom" ∧
    create_station
        ⟨"GreenCycle", "recycling", "123 Elm St", 37, -122, none, none, none,
          none, none, []⟩ (.ok [("name", Value.str "GreenCycle")]) =
      .ok 201 (serialize_doc [("name", Value.str "GreenCycle")]) ∧
    submit_feedback ⟨"item1", "up", none, none⟩ (.error "down") =
      .err 400 "down" ∧
    submit_feedback ⟨"item1", "up", none, none⟩ (.ok [("item_id", Value.str "item1")]) =
      .ok 201 (serialize_doc [("item_id", Value.str "item1")]) :=
  C7_insert_outcomes
    ⟨"GreenCycle", "recycling", "123 Elm St", 37, -122, none, none, none, none,
      none, []⟩
    ⟨"item1", "up", none, none⟩ "boom" "down" [("name", Value.str "GreenCycle")]
    [("item_id", Value.str "item1")]
    (by simp [stationValid, stationTypes, optRatingOK, optCountOK] <;> norm_num)
    (by decide)

/-- C4: station schema validation rejects every payload with latitude outside
[-90, 90] or longitude outside [-180, 180], surfacing as a framework-level
422 response, and accepts any payload with in-range coordinates whose other
fields are valid (so the request is never answered 422). -/
theorem C4_schema_bounds (p q : StationIn) (insP insQ : Except String Doc)
    (hout : p.latitude < -90 ∨ 90 < p.latitude ∨ p.longitude < -180 ∨
      180 < p.longitude)
    (hq1 : -90 ≤ q.latitude) (hq2 : q.latitude ≤ 90)
    (hq3 : -180 ≤ q.longitude) (hq4 : q.longitude ≤ 180)
    (hqo : stationOtherValid q = true) :
    stationValid p = false ∧
    create_station p insP = .err 422 "validation error" ∧
    stationValid q = true ∧
    create_station q insQ ≠ .err 422 "validation error" := by
  have hpf : stationValid p = false := by
    rcases hout with h | h | h | h
    · have hd : decide (-90 ≤ p.latitude) = false := decide_eq_false (not_le.mpr h)
      simp [stationValid, hd]
    · have hd : decide (p.latitude ≤ 90) = false := decide_eq_false (not_le.mpr h)
      simp [stationValid, hd]
    · have hd : decide (-180 ≤ p.longitude) = false := decide_eq_false (not_le.mpr h)
      simp [stationValid, hd]
    · have hd : decide (p.longitude ≤ 180) = false := decide_eq_false (not_le.mpr h)
      simp [stationValid, hd]
  have hqt : stationValid q = true := by
    simp only [stationOtherValid, Bool.and_eq_true] at hqo
    simp only [stationValid, Bool.and_eq_true, decide_eq_true_eq]
    exact ⟨⟨⟨⟨hqo.1.1, hq1, hq2⟩, hq3, hq4⟩, hqo.1.2⟩, hqo.2⟩
  refine ⟨hpf, ?_, hqt, ?_⟩
  · simp [create_station, hpf]
  · simp only [create_station, hqt, if_true]
    cases insQ <;> simp

/-- Witness for C4: latitude 100 is rejected, a fully valid payload is not. -/
theorem C4_schema_bounds_witness :
    stationValid
      ⟨"A", "dump", "B", 100, 0, none, none, none, none, none, []⟩ = false ∧
    create_station ⟨"A", "dump", "B", 100, 0, none, none, none, none, none, []⟩
      (.ok []) = .err 422 "validation error" ∧
    stationValid
      ⟨"A", "dump", "B", 10, 20, none, none, none, none, none, []⟩ = true ∧
    create_station ⟨"A", "dump", "B", 10, 20, none, none, none, none, none, []⟩
      (.ok []) ≠ .err 422 "validation error" :=
  C4_schema_bounds
    ⟨"A", "dump", "B", 100, 0, none, none, none, none, none, []⟩
    ⟨"A", "dump", "B", 10, 20, none, none, none, none, none, []⟩
    (.ok []) (.ok [])
    (Or.inr (Or.inl (by norm_num))) (by norm_num) (by norm_num) (by norm_num)
    (by norm_num) (by decide)

/-- C5: for a non-empty query string, a document matches the search filter
that `list_stations` builds exactly when the query occurs, ignoring case, as
a substring of its `name` or of its `address`; and the stations response is
the serialized truncation of the documents matching that filter. -/
theorem C5_query_substring (docs : List Doc) (d : Doc) (q : String) (limit : ℕ)
    (hq : ¬q = "") :
    (matchesFilter (stationFilter none (some q) none none none) d = true ↔
      (∃ n, d.lookup "name" = some (.str n) ∧ SubstrI q n) ∨
      (∃ a, d.lookup "address" = some (.str a) ∧ SubstrI q a)) ∧
    list_stations docs none (some q) limit none none none =
      ((docs.filter
        (matchesFilter (stationFilter none (some q) none none none))).take
          limit).map serialize_doc := by
  refine ⟨?_, rfl⟩
  have hfil : stationFilter none (some q) none none none = [.orSearch q] := by
    simp [stationFilter, hq]
  rw [hfil]
  simp [matchesFilter, matchesPred, fieldSearch_iff]

/-- Witness for C5 with the query "cycle" against a station named
"GreenCycle Center". -/
theorem C5_query_substring_witness :
    (matchesFilter (stationFilter none (some "cycle") none none none)
        [("name", Value.str "GreenCycle Center")] = true ↔
      (∃ n, ([("name", Value.str "GreenCycle Center")] : Doc).lookup "name" =
          some (.str n) ∧ SubstrI "cycle" n) ∨
      (∃ a, ([("name", Value.str "GreenCycle Center")] : Doc).lookup "address" =
          some (.str a) ∧ SubstrI "cycle" a)) ∧
    list_stations [[("name", Value.str "GreenCycle Center")]] none
        (some "cycle") 50 none none none =
      ((([[("name", Value.str "GreenCycle Center")]] : List Doc).filter
        (matchesFilter (stationFilter none (some "cycle") none none none))).take
          50).map serialize_doc :=
  C5_query_substring [[("name", Value.str "GreenCycle Center")]]
    [("name", Value.str "GreenCycle Center")] "cycle" 50 (by decide)

/-- A station far from the origin, used to exhibit the zero-radius gap. -/
def farDoc : Doc :=
  [("name", .str "Far Station"), ("type", .str "dump"), ("address", .str "x"),
   ("latitude", .num 50), ("longitude", .num 50)]

/-- Counterexample to C2 as stated: with `lat`, `lng` and `radius_km` all
supplied but `radius_km = 0`, the bounding box is skipped entirely (Python
truthiness), so a station at latitude 50 is returned even though 50 does not
lie in [0 - 0/111, 0 + 0/111]. -/
theorem C2_bbox_zero_radius_cex :
    farDoc ∈ list_stations [farDoc] none none 50 (some 0) (some 0) (some 0) ∧
    farDoc.lookup "latitude" = some (.num 50) ∧
    ¬((0 : ℚ) - 0 / 111 ≤ 50 ∧ (50 : ℚ) ≤ 0 + 0 / 111) := by
  refine ⟨?_, rfl, by norm_num⟩
  have hout : list_stations [farDoc] none none 50 (some 0) (some 0) (some 0) =
      [farDoc] := by
    simp [list_stations, get_documents, stationFilter, matchesFilter,
      serialize_doc, mapOids, valConv, farDoc, List.lookup]
  rw [hout]
  exact List.mem_singleton_self _

/-- C2 amended: when `lat`, `lng` are supplied and `radius_km` is supplied
and nonzero, every returned station document has a numeric latitude in
[lat - radius_km/111, lat + radius_km/111] and a numeric longitude in
[lng - radius_km/111, lng + radius_km/111]. -/
theorem C2_bbox_amended (docs : List Doc) (type query : Option String)
    (limit : ℕ) (la lo r : ℚ) (d : Doc) (hr : ¬r = 0)
    (hd : d ∈ list_stations docs type query limit (some la) (some lo) (some r)) :
    (∃ x, d.lookup "latitude" = some (.num x) ∧
      la - r / 111 ≤ x ∧ x ≤ la + r / 111) ∧
    (∃ y, d.lookup "longitude" = some (.num y) ∧
      lo - r / 111 ≤ y ∧ y ≤ lo + r / 111) := by
  unfold list_stations get_documents at hd
  rw [List.mem_map] at hd
  obtain ⟨d0, hd0, rfl⟩ := hd
  have hmem := List.mem_filter.mp ((List.take_subset _ _) hd0)
  have hmatch := hmem.2
  have hsplit : stationFilter type query (some la) (some lo) (some r) =
      ((match type with
        | some t => if t = "" then [] else [MPred.eqStr "type" t]
        | none => []) ++
       (match query with
        | some q => if q = "" then [] else [MPred.orSearch q]
        | none => [])) ++
      [.numRange "latitude" (la - r / 111) (la + r / 111),
       .numRange "longitude" (lo - r / 111) (lo + r / 111)] := by
    simp [stationFilter, hr, List.append_assoc]
  rw [hsplit] at hmatch
  simp only [matchesFilter, List.all_append, List.all_cons, List.all_nil,
    Bool.and_eq_true, Bool.and_true] at hmatch
  obtain ⟨-, hlat, hlng⟩ := hmatch
  constructor
  · rw [lookup_serialize_other d0 "latitude" (by decide) (by decide)]
    simp only [matchesPred] at hlat
    cases hlook : d0.lookup "latitude" with
    | none => rw [hlook] at hlat; simp at hlat
    | some v =>
      rw [hlook] at hlat
      cases v with
      | num x =>
        simp only [Bool.and_eq_true, decide_eq_true_eq] at hlat
        exact ⟨x, rfl, hlat.1, hlat.2⟩
      | str s => simp at hlat
      | oid s => simp at hlat
      | arr l => simp at hlat
  · rw [lookup_serialize_other d0 "longitude" (by decide) (by decide)]
    simp only [matchesPred] at hlng
    cases hlook : d0.lookup "longitude" with
    | none => rw [hlook] at hlng; simp at hlng
    | some v =>
      rw [hlook] at hlng
      cases v with
      | num y =>
        simp only [Bool.and_eq_true, decide_eq_true_eq] at hlng
        exact ⟨y, rfl, hlng.1, hlng.2⟩
      | str s => simp at hlng
      | oid s => simp at hlng
      | arr l => simp at hlng

/-- A station near the origin, inside the 111 km box. -/
def nearDoc : Doc :=
  [("name", .str "Near Station"), ("type", .str "dump"), ("address", .str "y"),
   ("latitude", .num 1), ("longitude", .num 1)]

/-- Witness for the amended C2 with radius 111 km around the origin. -/
theorem C2_bbox_amended_witness :
    (∃ x, nearDoc.lookup "latitude" = some (.num x) ∧
      0 - 111 / 111 ≤ x ∧ x ≤ 0 + 111 / 111) ∧
    (∃ y, nearDoc.lookup "longitude" = some (.num y) ∧
      0 - 111 / 111 ≤ y ∧ y ≤ 0 + 111 / 111) :=
  C2_bbox_amended [nearDoc] none none 50 0 0 111 nearDoc (by norm_num)
    (by
      have hout : list_stations [nearDoc] none none 50 (some 0) (some 0)
          (some 111) = [nearDoc] := by
        simp [list_stations, get_documents, stationFilter, matchesFilter,
          matchesPred, serialize_doc, mapOids, valConv, nearDoc, List.lookup]
      rw [hout]
      exact List.mem_singleton_self _)

/-- C10: in the nearby-stations distance computation a document missing a
coordinate field reads that coordinate as 0, a document whose coordinate
value cannot be converted to a number gets the fixed distance 10^12, such
documents are still returned whenever the limit accommodates the whole
collection, and in the response any document keyed at 10^12 sits after every
document whose distance is below 10^12. -/
theorem C10_malformed_distance (stations : List Doc) (lat lng lo : ℚ)
    (limit : ℕ) (dMiss dBad dGood dI dJ : Doc) (v : Value) (i j : ℕ)
    (h1 : dMiss.lookup "latitude" = none)
    (h2 : dMiss.lookup "longitude" = some (.num lo))
    (h3 : dBad.lookup "latitude" = some v) (h4 : pyFloat v = none)
    (h5 : dGood ∈ stations) (h6 : stations.length ≤ limit)
    (hgi : (nearby_stations stations lat lng limit).get? i = some dI)
    (hgj : (nearby_stations stations lat lng limit).get? j = some dJ)
    (hdi : dist2 lat lng dI = 10 ^ 12) (hdj : dist2 lat lng dJ < 10 ^ 12) :
    dist2 lat lng dMiss = (0 - lat) ^ 2 + (lo - lng) ^ 2 ∧
    dist2 lat lng dBad = 10 ^ 12 ∧
    serialize_doc dGood ∈ nearby_stations stations lat lng limit ∧
    j < i := by
  refine ⟨?_, ?_, ?_, ?_⟩
  · unfold dist2
    rw [h1, h2]
    rfl
  · unfold dist2
    rw [h3]
    simp [h4]
  · unfold nearby_stations
    rw [get_documents_all]
    apply List.mem_map_of_mem
    rw [List.take_of_length_le]
    · exact ((List.mergeSort_perm stations _).mem_iff).mpr h5
    · rw [List.length_mergeSort]
      exact h6
  · obtain ⟨hi, hIeq⟩ := List.get?_eq_some.mp hgi
    obtain ⟨hj, hJeq⟩ := List.get?_eq_some.mp hgj
    rw [← hIeq] at hdi
    rw [← hJeq] at hdj
    by_contra hij
    push_neg at hij
    rcases lt_or_eq_of_le hij with hlt | heq
    · have hp := nearby_pairwise stations lat lng limit
      rw [List.pairwise_iff_get] at hp
      have hle := hp ⟨i, hi⟩ ⟨j, hj⟩ hlt
      rw [hdi] at hle
      exact absurd (lt_of_le_of_lt hle hdj) (lt_irrefl _)
    · have hfin : (⟨i, hi⟩ : Fin (nearby_stations stations lat lng limit).length) =
          ⟨j, hj⟩ := Fin.ext heq
      rw [hfin] at hdi
      rw [hdi] at hdj
      exact absurd hdj (lt_irrefl _)

/-- A well-formed station at (3, 4), distance 25 from the origin. -/
def goodDoc : Doc := [("latitude", .num 3), ("longitude", .num 4)]

/-- A station whose latitude cannot be converted to a number. -/
def badDoc : Doc := [("latitude", .str "x")]

/-- A station with no latitude field at all. -/
def missDoc : Doc := [("longitude", .num 5)]

/-- Witness for C10: over [goodDoc, badDoc] queried from the origin with
limit 2, the malformed document lands at index 1, after the good one. -/
theorem C10_malformed_distance_witness :
    dist2 0 0 missDoc = (0 - 0) ^ 2 + (5 - 0) ^ 2 ∧
    dist2 0 0 badDoc = 10 ^ 12 ∧
    serialize_doc goodDoc ∈ nearby_stations [goodDoc, badDoc] 0 0 2 ∧
    0 < 1 := by
  have hsort : [goodDoc, badDoc].mergeSort (distLE 0 0) = [goodDoc, badDoc] := by
    have hle : distLE 0 0 goodDoc badDoc = true := by
      simp [distLE, dist2, goodDoc, badDoc, List.lookup, pyFloat]
      norm_num
    simp [List.mergeSort, List.merge, hle]
  have hnear : nearby_stations [goodDoc, badDoc] 0 0 2 = [goodDoc, badDoc] := by
    unfold nearby_stations
    rw [get_documents_all, hsort]
    rfl
  exact C10_malformed_distance [goodDoc, badDoc] 0 0 5 2 missDoc badDoc goodDoc
    badDoc goodDoc (.str "x") 1 0 rfl rfl rfl rfl
    (List.mem_cons_self _ _) (le_refl 2)
    (by rw [hnear]; rfl) (by rw [hnear]; rfl)
    (by simp [dist2, badDoc, List.lookup, pyFloat])
    (by
      simp [dist2, goodDoc, List.lookup, pyFloat]
      norm_num)

end WasteFinder
